import Mathlib

/-!
Shallow embedding of the interactive session subsystem of `cluster-ops`
(`src-tauri/src/lib.rs`, `src-tauri/src/commands/{exec,pods,proxy}.rs`).

The repository contains two revisions of the PTY exec code:
* `commands/exec.rs` — session struct `PtySessionInner` (writer + master + child),
  commands `start_pty_exec`, `resize_pty`, `stop_pty_exec`;
* `commands/pods.rs` together with `lib.rs` — session struct `PtySession`
  (writer + child only), commands `exec_into_pod`, `send_exec_input`.
Both are embedded (namespaces `Exec` and `Pods`), since the claims cite both.

Effectful operations are modelled as pure functions from an explicit state
(the lock-protected registry slot, with a `poisoned` flag for a poisoned
mutex) and an environment describing the outcomes of OS calls (spawn
success, handle ids, a child's `kill()` result) to the new state, a trace of
observable events, and the command's `Result`.  Background loops (the
output relay, the health-check loop) are embedded as functions of the
sequence of outcomes their blocking calls return.
-/

namespace ClusterOps

/-- Embeds `portable_pty::PtySize`; the code always passes 0 for the pixel fields. -/
structure PtySize where
  rows : Nat
  cols : Nat
  pixelWidth : Nat
  pixelHeight : Nat
deriving DecidableEq

instance {ε α : Type} [DecidableEq ε] [DecidableEq α] : DecidableEq (Except ε α) :=
  fun a b =>
    match a, b with
    | .ok a, .ok b =>
        if h : a = b then .isTrue (by rw [h]) else .isFalse (by simp [h])
    | .ok _, .error _ => .isFalse (by simp)
    | .error _, .ok _ => .isFalse (by simp)
    | .error e, .error f =>
        if h : e = f then .isTrue (by rw [h]) else .isFalse (by simp [h])

/-- A spawned child process handle: its pid, and the outcome that its
`kill()` method reports when invoked (success, or an OS error message such
as the one returned for an already-reaped process). -/
structure Child where
  pid : Nat
  killResult : Except String Unit
deriving DecidableEq

/-- An OS-level resource handle held by a session. -/
inductive Handle where
  | writer (id : Nat)
  | master (id : Nat)
  | child (pid : Nat)
deriving DecidableEq

/-- Whether a handle is a master/resize control handle. -/
def Handle.isMaster : Handle → Bool
  | .master _ => true
  | _ => false

/-- Observable events of a run: process lifecycle, handle drops, emitted
UI events, lock release, sleeps and health probes. -/
inductive Event where
  | openPty (size : PtySize)
  | spawned (pid : Nat)
  | killed (pid : Nat)
  | dropped (h : Handle)
  | installed (pid : Nat)
  | wrote (writerId : Nat) (data : String)
  | flushed (writerId : Nat)
  | resized (masterId : Nat) (size : PtySize)
  | emit (channel : String) (data : String)
  | emitUnit (channel : String)
  | releasedLock
  | slept (ms : Nat)
  | probed (attempt : Nat)
deriving DecidableEq

/-- A lock-protected slot holding at most one live value of kind `σ`
(`Arc<Mutex<Option<..>>>` in `lib.rs`); `poisoned` models a poisoned mutex,
which every command surfaces as an error (`.lock().map_err(..)?`). -/
structure Registry (σ : Type) where
  slot : Option σ
  poisoned : Bool

/-- Outcome of one read from the PTY master (`reader.read(&mut buf)`):
`ok bytes` is `Ok(n)` with the `n` bytes read (`n = 0` is EOF), `err` is a
read error. -/
inductive ReadResult where
  | ok (bytes : List Nat)
  | err (msg : String)
deriving DecidableEq

/-- A read result that makes the relay loop break: `Ok(0)` or `Err(_)`. -/
def ReadResult.isTerminator : ReadResult → Bool
  | .ok bytes => bytes.isEmpty
  | .err _ => true

/-- Embeds the background read loop spawned by `exec_into_pod`
(pods.rs 280–301) and, identically structured, by `start_pty_exec`
(exec.rs 112–140): each successful non-empty read is published on
`channel` after lossy UTF-8 decoding (`lossy` stands for
`String::from_utf8_lossy`); the loop breaks on the first `Ok(0)` or
`Err(_)`, after which exactly one unit event is published on
`doneChannel`.  An exhausted input list models a reader still blocked in
`read`, so no terminal event has been published yet. -/
def relayLoop (channel doneChannel : String) (lossy : List Nat → String) :
    List ReadResult → List Event
  | [] => []
  | .ok [] :: _ => [.emitUnit doneChannel]
  | .ok (b :: bs) :: rest =>
      .emit channel (lossy (b :: bs)) :: relayLoop channel doneChannel lossy rest
  | .err _ :: _ => [.emitUnit doneChannel]

namespace Proxy

/-- Embeds `reqwest::StatusCode::is_success`: 200 ≤ status ≤ 299. -/
def isSuccess (status : Nat) : Bool := 200 ≤ status && status ≤ 299

/-- Outcome of one health probe (`client.get("http://127.0.0.1:8001/api").send()`):
an HTTP response with its status code, or a connection/timeout error. -/
inductive ProbeResult where
  | response (status : Nat)
  | err (msg : String)
deriving DecidableEq

/-- Source proxy.rs 226–239: a response whose status is a success or 403 counts as
ready; a send error does not. -/
def probeReady : ProbeResult → Bool
  | .response status => isSuccess status || status == 403
  | .err _ => false

/-- Source proxy.rs 222: `for attempt in 1..=10`. -/
def maxAttempts : Nat := 10

/-- Source proxy.rs 223: `sleep(Duration::from_millis(500))` before each probe. -/
def pollIntervalMs : Nat := 500

/-- Source proxy.rs 217–219: the probe client is built with a 400 ms timeout. -/
def probeTimeoutMs : Nat := 400

/-- The health-check loop of `start_kubectl_proxy` (proxy.rs 222–240):
starting at `attempt`, with `fuel` attempts left, sleep then probe; return
on the first ready probe.  Yields the event trace and whether a probe was
ready within the budget. -/
def healthLoop (probe : Nat → ProbeResult) : Nat → Nat → List Event × Bool
  | _, 0 => ([], false)
  | attempt, fuel + 1 =>
      if probeReady (probe attempt) then
        ([.slept pollIntervalMs, .probed attempt], true)
      else
        (.slept pollIntervalMs :: .probed attempt ::
            (healthLoop probe (attempt + 1) fuel).1,
          (healthLoop probe (attempt + 1) fuel).2)

/-- Source proxy.rs 243–248: the error detail is the captured stderr, or a fixed
message when nothing (up to whitespace) was captured. -/
def failureDetail (captured : String) : String :=
  if captured.trim.isEmpty then "no output captured from kubectl proxy" else captured

/-- Source proxy.rs 250–252: the error returned after all attempts fail. -/
def failureMsg (captured : String) : String :=
  "kubectl proxy did not become ready after 10 attempts (5 s).\nProxy output:\n"
    ++ failureDetail captured

/-- Environment of one `start_kubectl_proxy` call: whether `Command::spawn`
succeeds, the child it yields, and the stderr the drain thread has
accumulated by the time the failure path reads the buffer. -/
structure StartEnv where
  spawnOk : Bool
  newChild : Child
  capturedStderr : String

/-- Embeds `start_kubectl_proxy` (proxy.rs 131–253).  Inside the lock block: take
and kill any previous child (kill result ignored), spawn the new child,
install it in the slot; the lock is dropped at the end of the block, then
the health-check loop runs.  On exhaustion the error carries the captured
stderr; the spawned child is not killed and stays in the slot. -/
def start_kubectl_proxy (st : Registry Child) (env : StartEnv)
    (probe : Nat → ProbeResult) :
    Registry Child × List Event × Except String Unit :=
  if st.poisoned then (st, [], .error "lock poisoned") else
  let killEvs : List Event :=
    match st.slot with
    | some prev => [.killed prev.pid]
    | none => []
  if env.spawnOk then
    let spawnEvs := killEvs ++
      [.spawned env.newChild.pid, .installed env.newChild.pid, .releasedLock]
    let h := healthLoop probe 1 maxAttempts
    if h.2 then
      ({ st with slot := some env.newChild }, spawnEvs ++ h.1, .ok ())
    else
      ({ st with slot := some env.newChild }, spawnEvs ++ h.1,
        .error (failureMsg env.capturedStderr))
  else
    ({ st with slot := none }, killEvs, .error "failed to spawn kubectl proxy")

/-- Embeds `stop_kubectl_proxy` (proxy.rs 258–265): take the child from the slot
and kill it, propagating a kill error to the caller
(`child.kill().map_err(|e| e.to_string())?`); no-op success when the slot
is empty. -/
def stop_kubectl_proxy (st : Registry Child) :
    Registry Child × List Event × Except String Unit :=
  if st.poisoned then (st, [], .error "lock poisoned") else
  match st.slot with
  | none => (st, [], .ok ())
  | some child =>
      ({ st with slot := none }, [.killed child.pid],
        match child.killResult with
        | .ok _ => .ok ()
        | .error e => .error e)

end Proxy

namespace Exec

/-- Embeds exec.rs 10–17, `PtySessionInner`: all handles needed to drive a live
PTY session — the write end, the master PTY handle (used for resize, kept
alive so the slave stays open), and the child process handle (used for
kill). -/
structure PtySessionInner where
  writer : Nat
  master : Nat
  child : Child
deriving DecidableEq

/-- The handles a `PtySessionInner` owns. -/
def PtySessionInner.handles (s : PtySessionInner) : List Handle :=
  [.writer s.writer, .master s.master, .child s.child.pid]

/-- Dropping a `PtySessionInner` releases its fields in declaration order. -/
def PtySessionInner.dropEvents (s : PtySessionInner) : List Event :=
  [.dropped (.writer s.writer), .dropped (.master s.master),
    .dropped (.child s.child.pid)]

/-- Source exec.rs 56–61: PTY size from the optional request parameters —
`rows.unwrap_or(24)`, `cols.unwrap_or(80)`, pixel fields 0. -/
def ptySize (cols rows : Option Nat) : PtySize :=
  { rows := rows.getD 24, cols := cols.getD 80, pixelWidth := 0, pixelHeight := 0 }

/-- Environment of one `start_pty_exec` call: outcomes of the OS calls in
source order (`openpty`, `spawn_command`, `try_clone_reader`,
`take_writer`) and the freshly allocated session handles. -/
structure StartEnv where
  openPtyOk : Bool
  spawnOk : Bool
  cloneReaderOk : Bool
  takeWriterOk : Bool
  fresh : PtySessionInner

/-- Embeds `start_pty_exec` (exec.rs 37–143), up to spawning the reader thread
(the relay is `relayLoop`, composed separately).  Opens the PTY at
`ptySize cols rows`, spawns the child, clones the reader and takes the
writer; then, under the lock, takes and kills any previous session
(`let _ = prev.child.kill()`, result ignored) and installs the new one;
the previous session's handles are dropped when it goes out of scope. -/
def start_pty_exec (st : Registry PtySessionInner) (cols rows : Option Nat)
    (env : StartEnv) :
    Registry PtySessionInner × List Event × Except String Unit :=
  if !env.openPtyOk then (st, [], .error "failed to open PTY") else
  if !env.spawnOk then
    (st, [.openPty (ptySize cols rows)], .error "failed to spawn kubectl exec") else
  if !env.cloneReaderOk then
    (st, [.openPty (ptySize cols rows), .spawned env.fresh.child.pid],
      .error "failed to clone PTY reader") else
  if !env.takeWriterOk then
    (st, [.openPty (ptySize cols rows), .spawned env.fresh.child.pid],
      .error "failed to take PTY writer") else
  if st.poisoned then
    (st, [.openPty (ptySize cols rows), .spawned env.fresh.child.pid],
      .error "lock poisoned") else
  match st.slot with
  | some prev =>
      ({ st with slot := some env.fresh },
        [.openPty (ptySize cols rows), .spawned env.fresh.child.pid,
          .killed prev.child.pid, .installed env.fresh.child.pid]
          ++ prev.dropEvents,
        .ok ())
  | none =>
      ({ st with slot := some env.fresh },
        [.openPty (ptySize cols rows), .spawned env.fresh.child.pid,
          .installed env.fresh.child.pid],
        .ok ())

/-- Embeds `resize_pty` (exec.rs 169–187): under the lock, resize the master PTY
of the current session if one is registered, propagating a resize error;
no-op success when the slot is empty.  `resizeResult` is what
`session.master.resize(..)` returns. -/
def resize_pty (st : Registry PtySessionInner) (cols rows : Nat)
    (resizeResult : Except String Unit) :
    Registry PtySessionInner × List Event × Except String Unit :=
  if st.poisoned then (st, [], .error "lock poisoned") else
  match st.slot with
  | none => (st, [], .ok ())
  | some s =>
      (st,
        [.resized s.master
          { rows := rows, cols := cols, pixelWidth := 0, pixelHeight := 0 }],
        match resizeResult with
        | .ok _ => .ok ()
        | .error e => .error ("PTY resize error: " ++ e))

/-- Embeds `stop_pty_exec` (exec.rs 192–198): take the session from the slot and
kill its child, ignoring the kill result (`let _ = session.child.kill()`);
the session's handles are dropped with it.  No-op success when the slot is
empty. -/
def stop_pty_exec (st : Registry PtySessionInner) :
    Registry PtySessionInner × List Event × Except String Unit :=
  if st.poisoned then (st, [], .error "lock poisoned") else
  match st.slot with
  | none => (st, [], .ok ())
  | some s =>
      ({ st with slot := none }, .killed s.child.pid :: s.dropEvents, .ok ())

end Exec

namespace Lib

/-- Embeds lib.rs 15–18, `PtySession`: a live exec session — the writer and the
child process handle only (the code's comment: both fields must be kept
alive together; dropping `child` kills the process, dropping `writer`
closes stdin).  There is no master/resize handle field. -/
structure PtySession where
  writer : Nat
  child : Child
deriving DecidableEq

/-- The handles a `lib.rs` `PtySession` owns: writer and child only. -/
def PtySession.handles (s : PtySession) : List Handle :=
  [.writer s.writer, .child s.child.pid]

/-- Dropping a `lib.rs` `PtySession` releases its two fields in
declaration order; no kill call is made. -/
def PtySession.dropEvents (s : PtySession) : List Event :=
  [.dropped (.writer s.writer), .dropped (.child s.child.pid)]

end Lib

namespace Pods

/-- Source pods.rs 244–247: the PTY size is the literal `rows: 24, cols: 80`;
`exec_into_pod` has no columns/rows request parameters. -/
def execPtySize : PtySize :=
  { rows := 24, cols := 80, pixelWidth := 0, pixelHeight := 0 }

/-- Environment of one `exec_into_pod` call: outcomes of the OS calls in
source order (`openpty`, `spawn_command`, `try_clone_reader`,
`take_writer`) and the freshly allocated handle ids and child. -/
structure ExecEnv where
  openPtyOk : Bool
  spawnOk : Bool
  cloneReaderOk : Bool
  takeWriterOk : Bool
  writerId : Nat
  masterId : Nat
  child : Child

/-- Embeds `exec_into_pod` (pods.rs 216–305), up to spawning the reader task (the
relay is `relayLoop`, composed separately).  First, under the lock, the
previous PTY session is cleared — `*guard = None` drops it, with no kill
call.  Then the PTY is opened at the literal 80×24 geometry, the child is
spawned, the reader cloned and the writer taken; the PTY pair (including
the master handle) is dropped when the `spawn_blocking` closure ends.
Finally `PtySession { writer, child }` is installed in the slot. -/
def exec_into_pod (st : Registry Lib.PtySession) (env : ExecEnv) :
    Registry Lib.PtySession × List Event × Except String Unit :=
  if st.poisoned then (st, [], .error "lock poisoned") else
  let clearEvs : List Event :=
    match st.slot with
    | some prev => prev.dropEvents
    | none => []
  if !env.openPtyOk then
    ({ st with slot := none }, clearEvs, .error "failed to open PTY") else
  if !env.spawnOk then
    ({ st with slot := none }, clearEvs ++ [.openPty execPtySize],
      .error "spawn failed") else
  if !env.cloneReaderOk then
    ({ st with slot := none },
      clearEvs ++ [.openPty execPtySize, .spawned env.child.pid],
      .error "failed to clone PTY reader") else
  if !env.takeWriterOk then
    ({ st with slot := none },
      clearEvs ++ [.openPty execPtySize, .spawned env.child.pid],
      .error "failed to take PTY writer") else
  ({ st with slot := some { writer := env.writerId, child := env.child } },
    clearEvs ++
      [.openPty execPtySize, .spawned env.child.pid,
        .dropped (.master env.masterId), .installed env.child.pid],
    .ok ())

/-- Embeds `send_exec_input` (pods.rs 310–324): under the lock, write the input
bytes to the current session's writer and flush, propagating either error;
no-op success when the slot is empty.  `writeResult`/`flushResult` are
what `write_all`/`flush` return. -/
def send_exec_input (st : Registry Lib.PtySession) (input : String)
    (writeResult flushResult : Except String Unit) :
    Registry Lib.PtySession × List Event × Except String Unit :=
  if st.poisoned then (st, [], .error "lock poisoned") else
  match st.slot with
  | none => (st, [], .ok ())
  | some s =>
      match writeResult with
      | .error e => (st, [.wrote s.writer input], .error ("PTY write error: " ++ e))
      | .ok _ =>
          match flushResult with
          | .error e =>
              (st, [.wrote s.writer input, .flushed s.writer],
                .error ("PTY flush error: " ++ e))
          | .ok _ => (st, [.wrote s.writer input, .flushed s.writer], .ok ())

/-- A whole session run: `exec_into_pod` followed, when it returned `Ok`,
by the detached reader task running to the given read outcomes.  The
reader task captures only the reader and the app handle (pods.rs
279–301), so it leaves the registry state untouched. -/
def execSessionRun (st : Registry Lib.PtySession) (env : ExecEnv)
    (lossy : List Nat → String) (reads : List ReadResult) :
    Registry Lib.PtySession × List Event :=
  match exec_into_pod st env with
  | (st', evs, .ok _) =>
      (st', evs ++ relayLoop "exec-output" "exec-done" lossy reads)
  | (st', evs, .error _) => (st', evs)

end Pods

/-! ## Concrete inputs used by closed witnesses and counterexamples -/

/-- A child with the given pid whose `kill()` reports success. -/
def okChild (pid : Nat) : Child := { pid := pid, killResult := .ok () }

/-- A child whose `kill()` reports an OS error, as for an already-reaped
process. -/
def exitedChild : Child := { pid := 7, killResult := .error "process already exited" }

/-- A concrete exec.rs session (writer 1, master 2, child pid 9). -/
def sampleInner : Exec.PtySessionInner := { writer := 1, master := 2, child := okChild 9 }

/-- A concrete lib.rs session (writer 1, child pid 5). -/
def sampleLib : Lib.PtySession := { writer := 1, child := okChild 5 }

/-- A concrete all-succeeding `exec_into_pod` environment (writer id 2,
master id 3, child pid 6). -/
def sampleExecEnv : Pods.ExecEnv :=
  { openPtyOk := true, spawnOk := true, cloneReaderOk := true, takeWriterOk := true,
    writerId := 2, masterId := 3, child := okChild 6 }

/-- A concrete all-succeeding `start_pty_exec` environment whose fresh
session is writer 4, master 5, child pid 8. -/
def sampleStartEnv : Exec.StartEnv :=
  { openPtyOk := true, spawnOk := true, cloneReaderOk := true, takeWriterOk := true,
    fresh := { writer := 4, master := 5, child := okChild 8 } }

/-- A concrete read sequence: one two-byte chunk, then EOF. -/
def sampleReads : List ReadResult := [.ok [104, 105], .ok []]

/-! ## Helper lemmas -/

namespace Proxy

theorem healthLoop_snd_iff (probe : Nat → ProbeResult) :
    ∀ (fuel attempt : Nat),
      (healthLoop probe attempt fuel).2 = true ↔
        ∃ i, attempt ≤ i ∧ i < attempt + fuel ∧ probeReady (probe i) = true := by
  intro fuel
  induction fuel with
  | zero =>
      intro a
      constructor
      · intro h; exact absurd h (by simp [healthLoop])
      · rintro ⟨i, h1, h2, _⟩; omega
  | succ f ih =>
      intro a
      by_cases h : probeReady (probe a) = true
      · constructor
        · intro _; exact ⟨a, Nat.le_refl a, by omega, h⟩
        · intro _; simp [healthLoop, h]
      · have hstep : (healthLoop probe a (f + 1)).2 = (healthLoop probe (a + 1) f).2 := by
          simp [healthLoop, h]
        rw [hstep, ih (a + 1)]
        constructor
        · rintro ⟨i, h1, h2, h3⟩; exact ⟨i, by omega, by omega, h3⟩
        · rintro ⟨i, h1, h2, h3⟩
          refine ⟨i, ?_, by omega, h3⟩
          rcases Nat.eq_or_lt_of_le h1 with heq | hlt
          · exact absurd (heq ▸ h3) h
          · omega

theorem healthLoop_no_killed (probe : Nat → ProbeResult) :
    ∀ (fuel attempt p : Nat), Event.killed p ∉ (healthLoop probe attempt fuel).1 := by
  intro fuel
  induction fuel with
  | zero => intro a p; simp [healthLoop]
  | succ f ih =>
      intro a p
      by_cases hp : probeReady (probe a) = true
      · simp [healthLoop, hp]
      · have hrec := ih (a + 1) p
        simp only [healthLoop, hp, if_false, Bool.false_eq_true, List.mem_cons,
          not_or]
        exact ⟨by simp, by simp, hrec⟩

end Proxy

theorem relayLoop_spec (c d : String) (lossy : List Nat → String) :
    ∀ (chunks : List (List Nat)) (t : ReadResult) (rest : List ReadResult),
      (∀ ch ∈ chunks, ch ≠ []) → t.isTerminator = true →
      relayLoop c d lossy (chunks.map .ok ++ t :: rest) =
        chunks.map (fun ch => Event.emit c (lossy ch)) ++ [Event.emitUnit d] := by
  intro chunks
  induction chunks with
  | nil =>
      intro t rest _ ht
      cases t with
      | ok bytes =>
          cases bytes with
          | nil => simp [relayLoop]
          | cons b bs => simp [ReadResult.isTerminator] at ht
      | err m => simp [relayLoop]
  | cons ch chs ih =>
      intro t rest hne ht
      cases ch with
      | nil => exact absurd rfl (hne [] (by simp))
      | cons b bs =>
          simp only [List.map_cons, List.cons_append, relayLoop, List.cons.injEq,
            true_and]
          exact ih t rest (fun x hx => hne x (by simp [hx])) ht

theorem relayLoop_count_done (c d : String) (lossy : List Nat → String)
    (chunks : List (List Nat)) (t : ReadResult) (rest : List ReadResult)
    (hne : ∀ ch ∈ chunks, ch ≠ []) (ht : t.isTerminator = true) :
    (relayLoop c d lossy (chunks.map .ok ++ t :: rest)).count (Event.emitUnit d) = 1 := by
  rw [relayLoop_spec c d lossy chunks t rest hne ht, List.count_append]
  have h0 : (chunks.map fun ch => Event.emit c (lossy ch)).count (Event.emitUnit d)
      = 0 := by
    rw [List.count_eq_zero]
    intro hmem
    rcases List.mem_map.mp hmem with ⟨ch, _, habs⟩
    exact Event.noConfusion habs
  rw [h0]
  simp

/-! ## Claim theorems -/

/-- C4: `start_kubectl_proxy` (after a successful spawn, with the lock not
poisoned) returns success if and only if one of the at most 10 health
probes reports an HTTP success status or 403; when every one of the 10
attempts fails, it returns the error built from the captured stderr, and a
non-blank captured stderr appears verbatim in that error.  The probes run
after the lock is released, 500 ms apart, with a 400 ms per-attempt
timeout. -/
theorem start_kubectl_proxy_ready_iff
    (st : Registry Child) (env : Proxy.StartEnv) (probe : Nat → Proxy.ProbeResult)
    (hp : st.poisoned = false) (hs : env.spawnOk = true) :
    ((Proxy.start_kubectl_proxy st env probe).2.2 = .ok () ↔
      ∃ i, 1 ≤ i ∧ i ≤ 10 ∧ Proxy.probeReady (probe i) = true)
    ∧ ((∀ i, 1 ≤ i → i ≤ 10 → Proxy.probeReady (probe i) = false) →
        (Proxy.start_kubectl_proxy st env probe).2.2 =
          .error (Proxy.failureMsg env.capturedStderr))
    ∧ (env.capturedStderr.trim.isEmpty = false →
        Proxy.failureMsg env.capturedStderr =
          "kubectl proxy did not become ready after 10 attempts (5 s).\nProxy output:\n"
            ++ env.capturedStderr)
    ∧ Proxy.probeTimeoutMs ≤ 400 ∧ Proxy.pollIntervalMs = 500
    ∧ Proxy.maxAttempts = 10
    ∧ (∃ pre post, (Proxy.start_kubectl_proxy st env probe).2.1 =
        pre ++ Event.releasedLock :: post ∧ ∀ a, Event.probed a ∉ pre) := by
  have hiff := Proxy.healthLoop_snd_iff probe Proxy.maxAttempts 1
  have hiff' : (Proxy.healthLoop probe 1 Proxy.maxAttempts).2 = true ↔
      ∃ i, 1 ≤ i ∧ i ≤ 10 ∧ Proxy.probeReady (probe i) = true := by
    rw [hiff]
    constructor
    · rintro ⟨i, h1, h2, h3⟩; exact ⟨i, h1, by simp [Proxy.maxAttempts] at h2; omega, h3⟩
    · rintro ⟨i, h1, h2, h3⟩; exact ⟨i, h1, by simp [Proxy.maxAttempts]; omega, h3⟩
  refine ⟨?_, ?_, ?_, by simp [Proxy.probeTimeoutMs], rfl, rfl, ?_⟩
  · by_cases hr : (Proxy.healthLoop probe 1 Proxy.maxAttempts).2 = true
    · constructor
      · intro _; exact hiff'.mp hr
      · intro _; simp [Proxy.start_kubectl_proxy, hp, hs, hr]
    · rw [Bool.not_eq_true] at hr
      constructor
      · intro hok
        exfalso
        simp [Proxy.start_kubectl_proxy, hp, hs, hr] at hok
      · intro hex
        exact absurd (hiff'.mpr hex) (by simp [hr])
  · intro hfail
    have hr : (Proxy.healthLoop probe 1 Proxy.maxAttempts).2 = false := by
      rcases Bool.eq_false_or_eq_true (Proxy.healthLoop probe 1 Proxy.maxAttempts).2
        with h | h
      · rcases hiff'.mp h with ⟨i, h1, h2, h3⟩
        exact absurd h3 (by simp [hfail i h1 h2])
      · exact h
    simp [Proxy.start_kubectl_proxy, hp, hs, hr]
  · intro hne
    simp [Proxy.failureMsg, Proxy.failureDetail, hne]
  · refine ⟨(match st.slot with
        | some prev => [Event.killed prev.pid]
        | none => []) ++
        [Event.spawned env.newChild.pid, Event.installed env.newChild.pid],
      (Proxy.healthLoop probe 1 Proxy.maxAttempts).1, ?_, ?_⟩
    · by_cases hr : (Proxy.healthLoop probe 1 Proxy.maxAttempts).2 = true <;>
        cases hslot : st.slot <;>
        simp [Proxy.start_kubectl_proxy, hp, hs, hr, hslot]
    · intro a
      cases hslot : st.slot <;> simp [hslot]

/-- Closed witness for `start_kubectl_proxy_ready_iff`: a prober that is
ready only on the 10th attempt, with captured stderr `"boom"`. -/
theorem start_kubectl_proxy_ready_iff_witness :
    (({ slot := none, poisoned := false } : Registry Child).poisoned = false
      ∧ ({ spawnOk := true, newChild := { pid := 1, killResult := .ok () },
            capturedStderr := "boom" } : Proxy.StartEnv).spawnOk = true)
    ∧ (((Proxy.start_kubectl_proxy { slot := none, poisoned := false }
          { spawnOk := true, newChild := { pid := 1, killResult := .ok () },
            capturedStderr := "boom" }
          (fun i => if i = 10 then .response 200 else .err "conn refused")).2.2
          = .ok () ↔
        ∃ i, 1 ≤ i ∧ i ≤ 10 ∧
          Proxy.probeReady
            ((fun i => if i = 10 then Proxy.ProbeResult.response 200
              else .err "conn refused") i) = true)
      ∧ ((∀ i, 1 ≤ i → i ≤ 10 →
            Proxy.probeReady
              ((fun i => if i = 10 then Proxy.ProbeResult.response 200
                else .err "conn refused") i) = false) →
          (Proxy.start_kubectl_proxy { slot := none, poisoned := false }
            { spawnOk := true, newChild := { pid := 1, killResult := .ok () },
              capturedStderr := "boom" }
            (fun i => if i = 10 then .response 200 else .err "conn refused")).2.2 =
            .error (Proxy.failureMsg "boom"))
      ∧ (("boom" : String).trim.isEmpty = false →
          Proxy.failureMsg "boom" =
            "kubectl proxy did not become ready after 10 attempts (5 s).\nProxy output:\n"
              ++ "boom")
      ∧ Proxy.probeTimeoutMs ≤ 400 ∧ Proxy.pollIntervalMs = 500
      ∧ Proxy.maxAttempts = 10
      ∧ (∃ pre post,
          (Proxy.start_kubectl_proxy { slot := none, poisoned := false }
            { spawnOk := true, newChild := { pid := 1, killResult := .ok () },
              capturedStderr := "boom" }
            (fun i => if i = 10 then .response 200 else .err "conn refused")).2.1 =
            pre ++ Event.releasedLock :: post ∧ ∀ a, Event.probed a ∉ pre)) :=
  ⟨⟨rfl, rfl⟩, start_kubectl_proxy_ready_iff _ _ _ rfl rfl⟩

/-- C5: when every one of the 10 health probes fails, `start_kubectl_proxy`
returns an error, but the proxy child installed in the slot before the
polling loop began is still registered there, unchanged, and no kill was
issued against it. -/
theorem start_kubectl_proxy_exhaustion_keeps_child
    (st : Registry Child) (env : Proxy.StartEnv) (probe : Nat → Proxy.ProbeResult)
    (hp : st.poisoned = false) (hs : env.spawnOk = true)
    (hfresh : ∀ prev, st.slot = some prev → prev.pid ≠ env.newChild.pid)
    (hfail : ∀ i, 1 ≤ i → i ≤ 10 → Proxy.probeReady (probe i) = false) :
    (Proxy.start_kubectl_proxy st env probe).1.slot = some env.newChild
    ∧ (Proxy.start_kubectl_proxy st env probe).2.2 =
        .error (Proxy.failureMsg env.capturedStderr)
    ∧ Event.killed env.newChild.pid ∉ (Proxy.start_kubectl_proxy st env probe).2.1 := by
  have hr : (Proxy.healthLoop probe 1 Proxy.maxAttempts).2 = false := by
    rcases Bool.eq_false_or_eq_true (Proxy.healthLoop probe 1 Proxy.maxAttempts).2
      with h | h
    · rcases (Proxy.healthLoop_snd_iff probe Proxy.maxAttempts 1).mp h
        with ⟨i, h1, h2, h3⟩
      have : i ≤ 10 := by simp [Proxy.maxAttempts] at h2; omega
      exact absurd h3 (by simp [hfail i h1 this])
    · exact h
  have hnk := Proxy.healthLoop_no_killed probe Proxy.maxAttempts 1 env.newChild.pid
  refine ⟨?_, ?_, ?_⟩
  · cases hslot : st.slot <;> simp [Proxy.start_kubectl_proxy, hp, hs, hr, hslot]
  · cases hslot : st.slot <;> simp [Proxy.start_kubectl_proxy, hp, hs, hr, hslot]
  · cases hslot : st.slot with
    | none =>
        simp [Proxy.start_kubectl_proxy, hp, hs, hr, hslot, hnk]
    | some prev =>
        have hne : env.newChild.pid ≠ prev.pid :=
          fun hcontra => hfresh prev hslot hcontra.symm
        simp [Proxy.start_kubectl_proxy, hp, hs, hr, hslot, hnk, hne]

/-- Closed witness for `start_kubectl_proxy_exhaustion_keeps_child`: a
previous proxy child with pid 3, a new child with pid 4, a prober that
never succeeds. -/
theorem start_kubectl_proxy_exhaustion_keeps_child_witness :
    (({ slot := some (okChild 3), poisoned := false } : Registry Child).poisoned = false
      ∧ ({ spawnOk := true, newChild := okChild 4,
            capturedStderr := "refused" } : Proxy.StartEnv).spawnOk = true
      ∧ (∀ prev : Child,
          ({ slot := some (okChild 3), poisoned := false } : Registry Child).slot =
              some prev →
            prev.pid ≠ (okChild 4).pid)
      ∧ (∀ i, 1 ≤ i → i ≤ 10 →
          Proxy.probeReady ((fun _ => Proxy.ProbeResult.err "conn refused") i) = false))
    ∧ ((Proxy.start_kubectl_proxy
          { slot := some (okChild 3), poisoned := false }
          { spawnOk := true, newChild := okChild 4, capturedStderr := "refused" }
          (fun _ => .err "conn refused")).1.slot = some (okChild 4)
      ∧ (Proxy.start_kubectl_proxy
          { slot := some (okChild 3), poisoned := false }
          { spawnOk := true, newChild := okChild 4, capturedStderr := "refused" }
          (fun _ => .err "conn refused")).2.2 = .error (Proxy.failureMsg "refused")
      ∧ Event.killed (okChild 4).pid ∉
          (Proxy.start_kubectl_proxy
            { slot := some (okChild 3), poisoned := false }
            { spawnOk := true, newChild := okChild 4, capturedStderr := "refused" }
            (fun _ => .err "conn refused")).2.1) :=
  ⟨⟨rfl, rfl,
    fun prev h => by
      obtain rfl : okChild 3 = prev := by injection h
      decide,
    fun _ _ _ => rfl⟩,
    start_kubectl_proxy_exhaustion_keeps_child _ _ _ rfl rfl
      (fun prev h => by
        obtain rfl : okChild 3 = prev := by injection h
        decide)
      (fun _ _ _ => rfl)⟩

/-- C10: with a previous proxy child registered, `start_kubectl_proxy`
(after a successful spawn) produces exactly the trace kill-previous,
spawn-new, install-new, release-lock, followed by the health-loop events,
and leaves the new child as the single slot occupant. -/
theorem start_kubectl_proxy_kill_before_spawn
    (st : Registry Child) (env : Proxy.StartEnv) (probe : Nat → Proxy.ProbeResult)
    (prev : Child)
    (hp : st.poisoned = false) (hs : env.spawnOk = true)
    (hprev : st.slot = some prev) :
    (Proxy.start_kubectl_proxy st env probe).1.slot = some env.newChild
    ∧ (Proxy.start_kubectl_proxy st env probe).2.1 =
        [Event.killed prev.pid, Event.spawned env.newChild.pid,
          Event.installed env.newChild.pid, Event.releasedLock]
          ++ (Proxy.healthLoop probe 1 Proxy.maxAttempts).1 := by
  by_cases hr : (Proxy.healthLoop probe 1 Proxy.maxAttempts).2 = true
  · constructor <;> simp [Proxy.start_kubectl_proxy, hp, hs, hr, hprev]
  · rw [Bool.not_eq_true] at hr
    constructor <;> simp [Proxy.start_kubectl_proxy, hp, hs, hr, hprev]

/-- Closed witness for `start_kubectl_proxy_kill_before_spawn`. -/
theorem start_kubectl_proxy_kill_before_spawn_witness :
    (({ slot := some (okChild 3), poisoned := false } : Registry Child).poisoned = false
      ∧ ({ spawnOk := true, newChild := okChild 4,
            capturedStderr := "" } : Proxy.StartEnv).spawnOk = true
      ∧ ({ slot := some (okChild 3), poisoned := false } : Registry Child).slot =
          some (okChild 3))
    ∧ ((Proxy.start_kubectl_proxy
          { slot := some (okChild 3), poisoned := false }
          { spawnOk := true, newChild := okChild 4, capturedStderr := "" }
          (fun _ => .response 200)).1.slot = some (okChild 4)
      ∧ (Proxy.start_kubectl_proxy
          { slot := some (okChild 3), poisoned := false }
          { spawnOk := true, newChild := okChild 4, capturedStderr := "" }
          (fun _ => .response 200)).2.1 =
          [Event.killed (okChild 3).pid, Event.spawned (okChild 4).pid,
            Event.installed (okChild 4).pid, Event.releasedLock]
            ++ (Proxy.healthLoop (fun _ => .response 200) 1 Proxy.maxAttempts).1) :=
  ⟨⟨rfl, rfl, rfl⟩,
    start_kubectl_proxy_kill_before_spawn _ _ _ _ rfl rfl rfl⟩

/-- C9 counterexample: a registered proxy child whose `kill()` reports an
error — as the OS does for an already-reaped process — makes
`stop_kubectl_proxy` return that error to the caller, so a kill failure on
an already-exited process is reported, contrary to the claim. -/
theorem stop_kubectl_proxy_reports_kill_error :
    (Proxy.stop_kubectl_proxy { slot := some exitedChild, poisoned := false }).2.2
      = .error "process already exited" := rfl

/-- C9 amended: a second stop after any stop returns success and performs
no operation (both for the PTY session and for the proxy), and
`stop_pty_exec` never reports a kill failure (its kill result is ignored);
`stop_kubectl_proxy` alone propagates a kill error to its caller. -/
theorem stop_idempotent_second_noop
    (pst : Registry Child) (est : Registry Exec.PtySessionInner)
    (hp : pst.poisoned = false) (he : est.poisoned = false) :
    Proxy.stop_kubectl_proxy (Proxy.stop_kubectl_proxy pst).1 =
      ((Proxy.stop_kubectl_proxy pst).1, [], .ok ())
    ∧ Exec.stop_pty_exec (Exec.stop_pty_exec est).1 =
      ((Exec.stop_pty_exec est).1, [], .ok ())
    ∧ (Exec.stop_pty_exec est).2.2 = .ok () := by
  refine ⟨?_, ?_, ?_⟩
  · cases hs : pst.slot <;>
      simp [Proxy.stop_kubectl_proxy, hp, hs]
  · cases hs : est.slot <;>
      simp [Exec.stop_pty_exec, he, hs]
  · cases hs : est.slot <;>
      simp [Exec.stop_pty_exec, he, hs]

/-- Closed witness for `stop_idempotent_second_noop`: a registered proxy
child and a registered PTY session, both with pid 9 children. -/
theorem stop_idempotent_second_noop_witness :
    (({ slot := some (okChild 9), poisoned := false } : Registry Child).poisoned = false
      ∧ ({ slot := some sampleInner,
            poisoned := false } : Registry Exec.PtySessionInner).poisoned = false)
    ∧ (Proxy.stop_kubectl_proxy
        (Proxy.stop_kubectl_proxy
          { slot := some (okChild 9), poisoned := false }).1 =
        ((Proxy.stop_kubectl_proxy
          { slot := some (okChild 9), poisoned := false }).1, [], .ok ())
      ∧ Exec.stop_pty_exec
          (Exec.stop_pty_exec { slot := some sampleInner, poisoned := false }).1 =
          ((Exec.stop_pty_exec
            { slot := some sampleInner, poisoned := false }).1, [], .ok ())
      ∧ (Exec.stop_pty_exec
          { slot := some sampleInner, poisoned := false }).2.2 = .ok ()) :=
  ⟨⟨rfl, rfl⟩, stop_idempotent_second_noop _ _ rfl rfl⟩

/-- C6: for a read sequence of non-empty chunks followed by a terminator
(zero-byte read or read error) and anything after it, the relay publishes
exactly the lossily-decoded chunks, in read order, followed by exactly one
terminal event — exactly one even when further zero-length reads follow
the terminator. -/
theorem relay_publishes_chunks_then_one_done
    (c d : String) (lossy : List Nat → String)
    (chunks : List (List Nat)) (t : ReadResult) (rest : List ReadResult)
    (hne : ∀ ch ∈ chunks, ch ≠ []) (ht : t.isTerminator = true) :
    relayLoop c d lossy (chunks.map .ok ++ t :: rest) =
      chunks.map (fun ch => Event.emit c (lossy ch)) ++ [Event.emitUnit d]
    ∧ (relayLoop c d lossy (chunks.map .ok ++ t :: rest)).count (Event.emitUnit d)
        = 1 :=
  ⟨relayLoop_spec c d lossy chunks t rest hne ht,
    relayLoop_count_done c d lossy chunks t rest hne ht⟩

/-- Closed witness for `relay_publishes_chunks_then_one_done`: two chunks,
EOF, then a repeated zero-length read and a read error. -/
theorem relay_publishes_chunks_then_one_done_witness :
    ((∀ ch ∈ [[104], [105, 106]], ch ≠ ([] : List Nat))
      ∧ (ReadResult.ok []).isTerminator = true)
    ∧ (relayLoop "exec-output" "exec-done" (fun _ => "chunk")
        (([[104], [105, 106]].map ReadResult.ok) ++
          ReadResult.ok [] :: [ReadResult.ok [], ReadResult.err "gone"]) =
        [[104], [105, 106]].map (fun ch =>
          Event.emit "exec-output" ((fun _ => "chunk") ch)) ++
          [Event.emitUnit "exec-done"]
      ∧ (relayLoop "exec-output" "exec-done" (fun _ => "chunk")
          (([[104], [105, 106]].map ReadResult.ok) ++
            ReadResult.ok [] :: [ReadResult.ok [], ReadResult.err "gone"])).count
          (Event.emitUnit "exec-done") = 1) :=
  ⟨⟨by decide, rfl⟩,
    relay_publishes_chunks_then_one_done "exec-output" "exec-done" (fun _ => "chunk")
      [[104], [105, 106]] (.ok []) [.ok [], .err "gone"] (by decide) rfl⟩

/-- C1 counterexample: with the lib.rs session (writer 1, child pid 5)
registered, `exec_into_pod` completes with exactly the new session
registered, but the previously registered session's process never receives
a kill signal — the previous session is merely dropped. -/
theorem exec_into_pod_no_kill_of_previous :
    (Pods.exec_into_pod { slot := some sampleLib, poisoned := false }
        sampleExecEnv).1.slot = some { writer := 2, child := okChild 6 }
    ∧ Event.killed sampleLib.child.pid ∉
        (Pods.exec_into_pod { slot := some sampleLib, poisoned := false }
          sampleExecEnv).2.1 := by
  decide

/-- C1 amended: after a successful start, exactly one session is
registered — the new one.  In exec.rs's `start_pty_exec` the previously
registered session's process receives a kill signal; in pods.rs's
`exec_into_pod` no kill signal is ever issued — the previous session is
removed from the registry and dropped (its child handle dropped with it). -/
theorem start_replaces_previous_session
    (est : Registry Exec.PtySessionInner) (cols rows : Option Nat)
    (eenv : Exec.StartEnv) (prevE : Exec.PtySessionInner)
    (pst : Registry Lib.PtySession) (penv : Pods.ExecEnv)
    (h1 : est.poisoned = false) (h2 : eenv.openPtyOk = true) (h3 : eenv.spawnOk = true)
    (h4 : eenv.cloneReaderOk = true) (h5 : eenv.takeWriterOk = true)
    (h6 : est.slot = some prevE)
    (g1 : pst.poisoned = false) (g2 : penv.openPtyOk = true) (g3 : penv.spawnOk = true)
    (g4 : penv.cloneReaderOk = true) (g5 : penv.takeWriterOk = true) :
    ((Exec.start_pty_exec est cols rows eenv).1.slot = some eenv.fresh
      ∧ Event.killed prevE.child.pid ∈ (Exec.start_pty_exec est cols rows eenv).2.1)
    ∧ ((Pods.exec_into_pod pst penv).1.slot =
          some { writer := penv.writerId, child := penv.child }
      ∧ (∀ p, Event.killed p ∉ (Pods.exec_into_pod pst penv).2.1)
      ∧ (∀ prev, pst.slot = some prev →
          Event.dropped (.child prev.child.pid) ∈
            (Pods.exec_into_pod pst penv).2.1)) := by
  refine ⟨⟨?_, ?_⟩, ?_, ?_, ?_⟩
  · simp [Exec.start_pty_exec, h1, h2, h3, h4, h5, h6]
  · simp [Exec.start_pty_exec, h1, h2, h3, h4, h5, h6]
  · cases hs : pst.slot <;> simp [Pods.exec_into_pod, g1, g2, g3, g4, g5, hs]
  · intro p
    cases hs : pst.slot <;>
      simp [Pods.exec_into_pod, g1, g2, g3, g4, g5, hs, Lib.PtySession.dropEvents]
  · intro prev hprev
    simp [Pods.exec_into_pod, g1, g2, g3, g4, g5, hprev, Lib.PtySession.dropEvents]

/-- Closed witness for `start_replaces_previous_session` at concrete
states and environments. -/
theorem start_replaces_previous_session_witness :
    (({ slot := some sampleInner,
          poisoned := false } : Registry Exec.PtySessionInner).poisoned = false
      ∧ sampleStartEnv.openPtyOk = true ∧ sampleStartEnv.spawnOk = true
      ∧ sampleStartEnv.cloneReaderOk = true ∧ sampleStartEnv.takeWriterOk = true
      ∧ ({ slot := some sampleInner,
            poisoned := false } : Registry Exec.PtySessionInner).slot =
          some sampleInner
      ∧ ({ slot := some sampleLib,
            poisoned := false } : Registry Lib.PtySession).poisoned = false
      ∧ sampleExecEnv.openPtyOk = true ∧ sampleExecEnv.spawnOk = true
      ∧ sampleExecEnv.cloneReaderOk = true ∧ sampleExecEnv.takeWriterOk = true)
    ∧ (((Exec.start_pty_exec { slot := some sampleInner, poisoned := false }
          (some 120) (some 40) sampleStartEnv).1.slot = some sampleStartEnv.fresh
      ∧ Event.killed sampleInner.child.pid ∈
          (Exec.start_pty_exec { slot := some sampleInner, poisoned := false }
            (some 120) (some 40) sampleStartEnv).2.1)
    ∧ ((Pods.exec_into_pod { slot := some sampleLib, poisoned := false }
          sampleExecEnv).1.slot =
          some { writer := sampleExecEnv.writerId, child := sampleExecEnv.child }
      ∧ (∀ p, Event.killed p ∉
          (Pods.exec_into_pod { slot := some sampleLib, poisoned := false }
            sampleExecEnv).2.1)
      ∧ (∀ prev,
          ({ slot := some sampleLib,
              poisoned := false } : Registry Lib.PtySession).slot = some prev →
          Event.dropped (.child prev.child.pid) ∈
            (Pods.exec_into_pod { slot := some sampleLib, poisoned := false }
              sampleExecEnv).2.1))) :=
  ⟨⟨rfl, rfl, rfl, rfl, rfl, rfl, rfl, rfl, rfl, rfl, rfl⟩,
    start_replaces_previous_session _ (some 120) (some 40) _ _ _ _
      rfl rfl rfl rfl rfl rfl rfl rfl rfl rfl rfl⟩

/-- C2 counterexample: the session registered by `exec_into_pod` owns only
a writer handle and a child handle — none of its handles is a resizable
control handle — while the master handle allocated by the same start is
dropped during the start call itself, independently of the session's
lifetime. -/
theorem exec_into_pod_session_lacks_control_handle :
    (Pods.exec_into_pod { slot := none, poisoned := false } sampleExecEnv).1.slot
        = some { writer := 2, child := okChild 6 }
    ∧ (Lib.PtySession.handles { writer := 2, child := okChild 6 }).all
        (fun h => !h.isMaster) = true
    ∧ Event.dropped (.master 3) ∈
        (Pods.exec_into_pod { slot := none, poisoned := false } sampleExecEnv).2.1 := by
  decide

/-- C2 amended: the exec.rs session (`PtySessionInner`) owns writer,
master and child together, and its teardown (`stop_pty_exec`) clears the
slot and releases exactly those three handles in one operation; the
lib.rs session (`PtySession`) registered by `exec_into_pod` owns only a
writer and a child with a shared lifetime, while the master/resize handle
is dropped during the start call. -/
theorem session_handle_ownership
    (st : Registry Exec.PtySessionInner) (s : Exec.PtySessionInner)
    (hp : st.poisoned = false) (hs : st.slot = some s)
    (pst : Registry Lib.PtySession) (penv : Pods.ExecEnv)
    (g1 : pst.poisoned = false) (g2 : penv.openPtyOk = true) (g3 : penv.spawnOk = true)
    (g4 : penv.cloneReaderOk = true) (g5 : penv.takeWriterOk = true) :
    ((Exec.stop_pty_exec st).1.slot = none
      ∧ (Exec.stop_pty_exec st).2.1 = Event.killed s.child.pid :: s.dropEvents
      ∧ s.dropEvents = s.handles.map Event.dropped
      ∧ s.handles = [.writer s.writer, .master s.master, .child s.child.pid])
    ∧ ((Pods.exec_into_pod pst penv).1.slot =
          some { writer := penv.writerId, child := penv.child }
      ∧ Lib.PtySession.handles { writer := penv.writerId, child := penv.child } =
          [.writer penv.writerId, .child penv.child.pid]
      ∧ Event.dropped (.master penv.masterId) ∈
          (Pods.exec_into_pod pst penv).2.1) := by
  refine ⟨⟨?_, ?_, rfl, rfl⟩, ?_, rfl, ?_⟩
  · simp [Exec.stop_pty_exec, hp, hs]
  · simp [Exec.stop_pty_exec, hp, hs]
  · cases hsl : pst.slot <;> simp [Pods.exec_into_pod, g1, g2, g3, g4, g5, hsl]
  · cases hsl : pst.slot <;> simp [Pods.exec_into_pod, g1, g2, g3, g4, g5, hsl]

/-- Closed witness for `session_handle_ownership`. -/
theorem session_handle_ownership_witness :
    (({ slot := some sampleInner,
          poisoned := false } : Registry Exec.PtySessionInner).poisoned = false
      ∧ ({ slot := some sampleInner,
            poisoned := false } : Registry Exec.PtySessionInner).slot =
          some sampleInner
      ∧ ({ slot := none,
            poisoned := false } : Registry Lib.PtySession).poisoned = false
      ∧ sampleExecEnv.openPtyOk = true ∧ sampleExecEnv.spawnOk = true
      ∧ sampleExecEnv.cloneReaderOk = true ∧ sampleExecEnv.takeWriterOk = true)
    ∧ (((Exec.stop_pty_exec
          { slot := some sampleInner, poisoned := false }).1.slot = none
      ∧ (Exec.stop_pty_exec { slot := some sampleInner, poisoned := false }).2.1 =
          Event.killed sampleInner.child.pid :: sampleInner.dropEvents
      ∧ sampleInner.dropEvents = sampleInner.handles.map Event.dropped
      ∧ sampleInner.handles =
          [.writer sampleInner.writer, .master sampleInner.master,
            .child sampleInner.child.pid])
    ∧ ((Pods.exec_into_pod { slot := none, poisoned := false }
          sampleExecEnv).1.slot =
          some { writer := sampleExecEnv.writerId, child := sampleExecEnv.child }
      ∧ Lib.PtySession.handles
          { writer := sampleExecEnv.writerId, child := sampleExecEnv.child } =
          [.writer sampleExecEnv.writerId, .child sampleExecEnv.child.pid]
      ∧ Event.dropped (.master sampleExecEnv.masterId) ∈
          (Pods.exec_into_pod { slot := none, poisoned := false }
            sampleExecEnv).2.1)) :=
  ⟨⟨rfl, rfl, rfl, rfl, rfl, rfl, rfl⟩,
    session_handle_ownership _ _ rfl rfl _ _ rfl rfl rfl rfl rfl⟩

/-- C3 counterexample: a run of `exec_into_pod` whose relay reads one
chunk and then EOF publishes its terminal event, yet the registry slot
still holds the session and none of its handles has been dropped — the
slot is not cleared when the relay terminates. -/
theorem relay_end_keeps_slot_registered :
    Event.emitUnit "exec-done" ∈
        (Pods.execSessionRun { slot := none, poisoned := false } sampleExecEnv
          (fun _ => "hi") sampleReads).2
    ∧ (Pods.execSessionRun { slot := none, poisoned := false } sampleExecEnv
          (fun _ => "hi") sampleReads).1.slot = some { writer := 2, child := okChild 6 }
    ∧ Event.dropped (.child 6) ∉
        (Pods.execSessionRun { slot := none, poisoned := false } sampleExecEnv
          (fun _ => "hi") sampleReads).2
    ∧ Event.dropped (.writer 2) ∉
        (Pods.execSessionRun { slot := none, poisoned := false } sampleExecEnv
          (fun _ => "hi") sampleReads).2 := by
  decide

/-- C3 amended: when the relay loop terminates on a zero-byte read or a
read error it publishes exactly one terminal event, but the registry slot
still holds the session unchanged; the slot is cleared — with the process
killed and all the session's handles released — only by an explicit stop
(exec.rs `stop_pty_exec`) or by the next start. -/
theorem relay_termination_keeps_session_until_stop
    (pst : Registry Lib.PtySession) (penv : Pods.ExecEnv) (lossy : List Nat → String)
    (chunks : List (List Nat)) (t : ReadResult) (rest : List ReadResult)
    (g1 : pst.poisoned = false) (g2 : penv.openPtyOk = true) (g3 : penv.spawnOk = true)
    (g4 : penv.cloneReaderOk = true) (g5 : penv.takeWriterOk = true)
    (hne : ∀ ch ∈ chunks, ch ≠ []) (ht : t.isTerminator = true) :
    (Pods.execSessionRun pst penv lossy (chunks.map .ok ++ t :: rest)).1.slot =
        some { writer := penv.writerId, child := penv.child }
    ∧ (Pods.execSessionRun pst penv lossy (chunks.map .ok ++ t :: rest)).2.count
        (Event.emitUnit "exec-done") = 1
    ∧ (∀ est : Registry Exec.PtySessionInner, ∀ s : Exec.PtySessionInner,
        est.poisoned = false → est.slot = some s →
        (Exec.stop_pty_exec est).1.slot = none
        ∧ (Exec.stop_pty_exec est).2.1 = Event.killed s.child.pid :: s.dropEvents) := by
  have hcount := relayLoop_count_done "exec-output" "exec-done" lossy chunks t rest
    hne ht
  refine ⟨?_, ?_, ?_⟩
  · cases hsl : pst.slot <;>
      simp [Pods.execSessionRun, Pods.exec_into_pod, g1, g2, g3, g4, g5, hsl]
  · cases hsl : pst.slot <;>
      simp [Pods.execSessionRun, Pods.exec_into_pod, g1, g2, g3, g4, g5, hsl,
        Lib.PtySession.dropEvents, List.count_append, List.count_cons, hcount]
  · intro est s hep hes
    constructor <;> simp [Exec.stop_pty_exec, hep, hes]

/-- Closed witness for `relay_termination_keeps_session_until_stop`. -/
theorem relay_termination_keeps_session_until_stop_witness :
    (({ slot := some sampleLib,
          poisoned := false } : Registry Lib.PtySession).poisoned = false
      ∧ sampleExecEnv.openPtyOk = true ∧ sampleExecEnv.spawnOk = true
      ∧ sampleExecEnv.cloneReaderOk = true ∧ sampleExecEnv.takeWriterOk = true
      ∧ (∀ ch ∈ [[104, 105]], ch ≠ ([] : List Nat))
      ∧ (ReadResult.err "broken pipe").isTerminator = true)
    ∧ ((Pods.execSessionRun { slot := some sampleLib, poisoned := false }
          sampleExecEnv (fun _ => "hi")
          ([[104, 105]].map ReadResult.ok ++
            ReadResult.err "broken pipe" :: [])).1.slot =
          some { writer := sampleExecEnv.writerId, child := sampleExecEnv.child }
      ∧ (Pods.execSessionRun { slot := some sampleLib, poisoned := false }
          sampleExecEnv (fun _ => "hi")
          ([[104, 105]].map ReadResult.ok ++
            ReadResult.err "broken pipe" :: [])).2.count
          (Event.emitUnit "exec-done") = 1
      ∧ (∀ est : Registry Exec.PtySessionInner, ∀ s : Exec.PtySessionInner,
          est.poisoned = false → est.slot = some s →
          (Exec.stop_pty_exec est).1.slot = none
          ∧ (Exec.stop_pty_exec est).2.1 =
              Event.killed s.child.pid :: s.dropEvents)) :=
  ⟨⟨rfl, rfl, rfl, rfl, rfl, by decide, rfl⟩,
    relay_termination_keeps_session_until_stop _ _ (fun _ => "hi")
      [[104, 105]] (.err "broken pipe") [] rfl rfl rfl rfl rfl (by decide) rfl⟩

/-- C7: the PTY is allocated with the caller's explicit columns/rows when
the start request supplies them and with the default 80×24 otherwise
(exec.rs `start_pty_exec`); `exec_into_pod` has no geometry parameters and
always allocates 80×24. -/
theorem pty_default_and_explicit_geometry
    (st : Registry Exec.PtySessionInner) (env : Exec.StartEnv)
    (cols rows : Nat) (ocols orows : Option Nat)
    (h1 : st.poisoned = false) (h2 : env.openPtyOk = true) (h3 : env.spawnOk = true)
    (h4 : env.cloneReaderOk = true) (h5 : env.takeWriterOk = true)
    (pst : Registry Lib.PtySession) (penv : Pods.ExecEnv)
    (g1 : pst.poisoned = false) (g2 : penv.openPtyOk = true) (g3 : penv.spawnOk = true)
    (g4 : penv.cloneReaderOk = true) (g5 : penv.takeWriterOk = true) :
    Exec.ptySize none none =
      { rows := 24, cols := 80, pixelWidth := 0, pixelHeight := 0 }
    ∧ Exec.ptySize (some cols) (some rows) =
      { rows := rows, cols := cols, pixelWidth := 0, pixelHeight := 0 }
    ∧ Event.openPty (Exec.ptySize ocols orows) ∈
        (Exec.start_pty_exec st ocols orows env).2.1
    ∧ Event.openPty Pods.execPtySize ∈ (Pods.exec_into_pod pst penv).2.1
    ∧ Pods.execPtySize =
      { rows := 24, cols := 80, pixelWidth := 0, pixelHeight := 0 } := by
  refine ⟨rfl, rfl, ?_, ?_, rfl⟩
  · cases hsl : st.slot <;>
      simp [Exec.start_pty_exec, h1, h2, h3, h4, h5, hsl]
  · cases hsl : pst.slot <;>
      simp [Pods.exec_into_pod, g1, g2, g3, g4, g5, hsl]

/-- Closed witness for `pty_default_and_explicit_geometry`, using explicit
geometry 120×40 for the exec.rs start. -/
theorem pty_default_and_explicit_geometry_witness :
    (({ slot := none,
          poisoned := false } : Registry Exec.PtySessionInner).poisoned = false
      ∧ sampleStartEnv.openPtyOk = true ∧ sampleStartEnv.spawnOk = true
      ∧ sampleStartEnv.cloneReaderOk = true ∧ sampleStartEnv.takeWriterOk = true
      ∧ ({ slot := none,
            poisoned := false } : Registry Lib.PtySession).poisoned = false
      ∧ sampleExecEnv.openPtyOk = true ∧ sampleExecEnv.spawnOk = true
      ∧ sampleExecEnv.cloneReaderOk = true ∧ sampleExecEnv.takeWriterOk = true)
    ∧ (Exec.ptySize none none =
        { rows := 24, cols := 80, pixelWidth := 0, pixelHeight := 0 }
      ∧ Exec.ptySize (some 120) (some 40) =
        { rows := 40, cols := 120, pixelWidth := 0, pixelHeight := 0 }
      ∧ Event.openPty (Exec.ptySize (some 120) (some 40)) ∈
          (Exec.start_pty_exec { slot := none, poisoned := false }
            (some 120) (some 40) sampleStartEnv).2.1
      ∧ Event.openPty Pods.execPtySize ∈
          (Pods.exec_into_pod { slot := none, poisoned := false } sampleExecEnv).2.1
      ∧ Pods.execPtySize =
        { rows := 24, cols := 80, pixelWidth := 0, pixelHeight := 0 }) :=
  ⟨⟨rfl, rfl, rfl, rfl, rfl, rfl, rfl, rfl, rfl, rfl⟩,
    pty_default_and_explicit_geometry _ _ 120 40 (some 120) (some 40)
      rfl rfl rfl rfl rfl _ _ rfl rfl rfl rfl rfl⟩

/-- C8: `send_exec_input` and `resize_pty` invoked with no session
registered (and the lock healthy) return success, change no state, and
produce no events. -/
theorem send_input_resize_empty_noop
    (pst : Registry Lib.PtySession) (est : Registry Exec.PtySessionInner)
    (input : String) (wR fR rR : Except String Unit) (cols rows : Nat)
    (h1 : pst.poisoned = false) (h2 : pst.slot = none)
    (h3 : est.poisoned = false) (h4 : est.slot = none) :
    Pods.send_exec_input pst input wR fR = (pst, [], .ok ())
    ∧ Exec.resize_pty est cols rows rR = (est, [], .ok ()) := by
  constructor
  · simp [Pods.send_exec_input, h1, h2]
  · simp [Exec.resize_pty, h3, h4]

/-- Closed witness for `send_input_resize_empty_noop`: a late keystroke
and a resize against empty registries. -/
theorem send_input_resize_empty_noop_witness :
    (({ slot := none,
          poisoned := false } : Registry Lib.PtySession).poisoned = false
      ∧ ({ slot := none,
            poisoned := false } : Registry Lib.PtySession).slot = none
      ∧ ({ slot := none,
            poisoned := false } : Registry Exec.PtySessionInner).poisoned = false
      ∧ ({ slot := none,
            poisoned := false } : Registry Exec.PtySessionInner).slot = none)
    ∧ (Pods.send_exec_input { slot := none, poisoned := false } "ls\n"
          (.ok ()) (.ok ()) =
        ({ slot := none, poisoned := false }, [], .ok ())
      ∧ Exec.resize_pty { slot := none, poisoned := false } 132 43 (.ok ()) =
        ({ slot := none, poisoned := false }, [], .ok ())) :=
  ⟨⟨rfl, rfl, rfl, rfl⟩,
    send_input_resize_empty_noop _ _ "ls\n" (.ok ()) (.ok ()) (.ok ()) 132 43
      rfl rfl rfl rfl⟩

end ClusterOps
